import Mathlib

/-!
Shallow embedding of the vehicle decision/coordination core of
src/v2x_unified_complete.py.

Modelling conventions:
* Python floats are modelled as exact rationals (ℚ).  No claim in this
  development depends on floating-point rounding.
* Python `float('inf')` (the initial `dist_to_ahead`) is modelled as
  `Option ℚ` with `none` standing for infinity.
* The Python dict `self.vehicles` is modelled as an association list
  `List (String × Option Vehicle)`.  The value type is `Option Vehicle`
  because `on_message` can store `Vehicle.from_json(payload)`, which is
  `None` when deserialization fails (this is exactly the behaviour one
  of the claims is about).  A real dict has unique keys; theorems that
  need this take a `Nodup` hypothesis on the key list.
* Random draws made by the `Vehicle` constructor (initial x, speed and
  color of a non-emergency vehicle) are passed in as explicit
  parameters `rx rs rc`; `time.time()` is passed as `now`.
-/

namespace V2X

namespace Config

def LANE_COUNT : ℤ := 4

def SERVICE_LANE_INDEX : ℤ := 3

def TOTAL_LENGTH : ℚ := 2000

def MAX_SPEED_KMH : ℚ := 250

/-- `MAX_SPEED_KMH / 3.6`; the decimal 3.6 is written as 18/5 so that the
constant kernel-evaluates. -/
def MAX_SPEED_MS : ℚ := MAX_SPEED_KMH / (18 / 5)

def ACCEL : ℚ := 10

def BRAKE : ℚ := 25

def SAFE_DIST : ℚ := 200

def CRITICAL_DIST : ℚ := 80

def AMBULANCE_DIST : ℚ := 400

def GHOST_TIMEOUT : ℚ := 3

end Config

/-- State of one vehicle, mirroring the fields of the Python `Vehicle`
class that the decision core reads or writes. -/
structure Vehicle where
  id : String
  is_emergency : Bool
  lane : ℤ
  visual_lane : ℚ
  x : ℚ
  speed : ℚ
  user_target_speed : ℚ
  target_speed : ℚ
  color : List ℤ
  warning_vehicle_ahead : Bool
  braking : Bool
  drowsy_alert : Bool
  last_update : ℚ
  lane_change_cooldown : ℚ
deriving DecidableEq

/-- `Vehicle.__init__(uid, is_emergency)`.  `rx`, `rs`, `rc` stand for the
random draws `random.randint(0, 1500)`, `random.randint(20, 30)` and the
random color; `now` stands for `time.time()`. -/
def vehicleNew (uid : String) (is_em : Bool) (rx rs : ℚ) (rc : List ℤ) (now : ℚ) : Vehicle :=
  { id := uid
    is_emergency := is_em
    lane := if is_em then 0 else 1
    visual_lane := if is_em then 0 else 1
    x := if is_em then 0 else rx
    speed := if is_em then Config.MAX_SPEED_MS else rs
    user_target_speed := 25
    target_speed := if is_em then Config.MAX_SPEED_MS else rs
    color := if is_em then [255, 215, 0] else rc
    warning_vehicle_ahead := false
    braking := false
    drowsy_alert := false
    last_update := now
    lane_change_cooldown := 0 }

/-- Result of the perception loop at the top of `update_physics`:
`dist_to_ahead` (`none` = `float('inf')`), `speed_of_car_ahead`, and
`ambulance_behind`. -/
structure Percept where
  distAhead : Option ℚ
  aheadSpeed : Option ℚ
  ambBehind : Bool

/-- `d < dist_to_ahead` where `dist_to_ahead` may be infinity. -/
def ltInf (d : ℚ) (o : Option ℚ) : Bool :=
  match o with
  | none => true
  | some d0 => decide (d < d0)

/-- `dist_to_ahead < c` where `dist_to_ahead` may be infinity. -/
def infLt (o : Option ℚ) (c : ℚ) : Bool :=
  match o with
  | none => false
  | some d => decide (d < c)

/-- Wraparound relative distance: `d = a - b; if d < 0: d += TOTAL_LENGTH`. -/
def wrapDist (a b : ℚ) : ℚ :=
  let d := a - b
  if d < 0 then d + Config.TOTAL_LENGTH else d

/-- One iteration of the perception loop body of `update_physics`. -/
def perceiveStep (self : Vehicle) (p : Percept) (other : Vehicle) : Percept :=
  if other.id == self.id then p
  else
    let dA := wrapDist other.x self.x
    let dB := wrapDist self.x other.x
    if other.lane == self.lane then
      let p1 :=
        if ltInf dA p.distAhead then
          { p with distAhead := some dA, aheadSpeed := some other.speed }
        else p
      if other.is_emergency && decide (dB < Config.AMBULANCE_DIST) then
        { p1 with ambBehind := true }
      else p1
    else p

/-- The full perception loop of `update_physics` over `all_vehicles.values()`. -/
def perceive (self : Vehicle) (vs : List Vehicle) : Percept :=
  vs.foldl (perceiveStep self) ⟨none, none, false⟩

/-- The behaviour-logic if/elif chain of `update_physics`, applied after the
flag resets and cooldown decrement.  Takes the vehicle with
`warning_vehicle_ahead`/`braking` already reset and the cooldown already
decremented, exactly as in the source. -/
def decisionStep (v : Vehicle) (p : Percept) (is_me_drowsy : Bool) : Vehicle :=
  if is_me_drowsy then
    if v.lane ≠ Config.SERVICE_LANE_INDEX then
      if v.lane_change_cooldown ≤ 0 then
        { v with drowsy_alert := true, lane := v.lane + 1, lane_change_cooldown := 1 }
      else { v with drowsy_alert := true }
    else
      { v with drowsy_alert := true, target_speed := 0, braking := true }
  else if p.ambBehind && !v.is_emergency && decide (v.lane_change_cooldown ≤ 0) then
    if v.lane < Config.LANE_COUNT - 1 then
      { v with lane := v.lane + 1, lane_change_cooldown := 2 }
    else if v.lane > 0 then
      { v with lane := v.lane - 1, lane_change_cooldown := 2 }
    else v
  else if v.is_emergency then
    { v with target_speed := Config.MAX_SPEED_MS * (6 / 5) }
  else if infLt p.distAhead Config.CRITICAL_DIST then
    { v with target_speed := 0, warning_vehicle_ahead := true, braking := true }
  else if infLt p.distAhead Config.SAFE_DIST then
    { v with
      target_speed := match p.aheadSpeed with
        | some s => s * (4 / 5)
        | none => 10
      braking := true
      warning_vehicle_ahead := decide (v.speed > p.aheadSpeed.getD 0) }
  else
    { v with target_speed := v.user_target_speed }

/-- The accelerate-or-brake-then-clamp speed update at the end of
`update_physics`. -/
def newSpeed (v : Vehicle) (dt : ℚ) : ℚ :=
  let s1 :=
    if v.speed < v.target_speed then v.speed + Config.ACCEL * dt
    else if v.speed > v.target_speed then v.speed - Config.BRAKE * dt
    else v.speed
  max 0 (min s1 (Config.MAX_SPEED_MS * (3 / 2)))

/-- Acceleration/braking, speed clamping and position update at the end of
`update_physics`. -/
def kinematics (v : Vehicle) (dt : ℚ) : Vehicle :=
  { v with
    speed := newSpeed v dt
    x := if v.x + newSpeed v dt * dt > Config.TOTAL_LENGTH then 0
         else v.x + newSpeed v dt * dt }

/-- The flag resets and cooldown decrement that precede the behaviour chain
in `update_physics`. -/
def resetFlags (v : Vehicle) (dt : ℚ) : Vehicle :=
  { v with
    warning_vehicle_ahead := false
    braking := false
    lane_change_cooldown := v.lane_change_cooldown - dt }

/-- `Vehicle.update_physics(dt, all_vehicles, is_me_drowsy)`.  `vs` is the
list of values of `all_vehicles` (the perception loop skips the entry whose
id equals `self.id`). -/
def updatePhysics (v : Vehicle) (dt : ℚ) (vs : List Vehicle) (is_me_drowsy : Bool) : Vehicle :=
  kinematics (decisionStep (resetFlags v dt) (perceive v vs) is_me_drowsy) dt

/-- The impaired-driver rule of `update_physics` in isolation: the flag
resets and cooldown decrement, then branch 1 (drowsiness handling) of the
behaviour chain, then the shared kinematics.  Used to state that the drowsy
branch is what executes on an impaired tick. -/
def impairedStep (v : Vehicle) (dt : ℚ) : Vehicle :=
  kinematics
    (if (resetFlags v dt).lane ≠ Config.SERVICE_LANE_INDEX then
      if (resetFlags v dt).lane_change_cooldown ≤ 0 then
        { resetFlags v dt with
          drowsy_alert := true
          lane := (resetFlags v dt).lane + 1
          lane_change_cooldown := 1 }
      else { resetFlags v dt with drowsy_alert := true }
    else
      { resetFlags v dt with
        drowsy_alert := true
        target_speed := 0
        braking := true }) dt

/-! ## JSON payloads and deserialization -/

/-- Parsed JSON values.  `json.loads` distinguishes ints from floats, so
integers and other numbers get separate constructors.  A payload that does
not parse at all is modelled as `none` at the use sites. -/
inductive JVal where
  | jnull : JVal
  | jbool : Bool → JVal
  | jint : ℤ → JVal
  | jnum : ℚ → JVal
  | jstr : String → JVal
  | jarr : List JVal → JVal
  | jobj : List (String × JVal) → JVal

/-- `d[k]` on a parsed payload; `none` models the KeyError/TypeError the
source catches. -/
def jget (d : JVal) (k : String) : Option JVal :=
  match d with
  | .jobj l => l.lookup k
  | _ => none

def getStr (d : JVal) (k : String) : Option String :=
  match jget d k with
  | some (.jstr s) => some s
  | _ => none

def getBool (d : JVal) (k : String) : Option Bool :=
  match jget d k with
  | some (.jbool b) => some b
  | _ => none

def getInt (d : JVal) (k : String) : Option ℤ :=
  match jget d k with
  | some (.jint n) => some n
  | _ => none

def getNum (d : JVal) (k : String) : Option ℚ :=
  match jget d k with
  | some (.jint n) => some (n : ℚ)
  | some (.jnum q) => some q
  | _ => none

/-- `d.get(k, dflt)` for the boolean fields `drw`/`brk`. -/
def getBoolD (d : JVal) (k : String) (dflt : Bool) : Bool :=
  (getBool d k).getD dflt

/-- `tuple(d['col'])`: requires a JSON array (of ints in every payload the
program itself produces). -/
def getIntList (d : JVal) (k : String) : Option (List ℤ) :=
  match jget d k with
  | some (.jarr l) =>
      l.mapM fun j =>
        match j with
        | .jint n => some n
        | _ => none
  | _ => none

/-- `Vehicle.from_json(payload)`.  `p = none` models a payload on which
`json.loads` raises; any missing/ill-typed required field makes the whole
deserialization return `none` (the caught exception path).  The optional
fields `drw`/`brk` default to `false`. -/
def fromJson (p : Option JVal) (rx rs : ℚ) (rc : List ℤ) (now : ℚ) : Option Vehicle :=
  match p with
  | none => none
  | some d => do
    let did ← getStr d "id"
    let em ← getBool d "emb"
    let l0 ← getInt d "lane"
    let x0 ← getNum d "x"
    let s0 ← getNum d "spd"
    let c0 ← getIntList d "col"
    let base := vehicleNew did em rx rs rc now
    some { base with
      lane := l0
      x := x0
      speed := s0
      color := c0
      drowsy_alert := getBoolD d "drw" false
      braking := getBoolD d "brk" false
      visual_lane := (l0 : ℚ)
      last_update := now }

/-! ## The peer registry and the application state -/

/-- The `self.vehicles` dict.  Values are `Option Vehicle` because the
source can store `Vehicle.from_json(payload)`, which may be `None`. -/
abbrev Reg := List (String × Option Vehicle)

def containsKey (reg : Reg) (k : String) : Bool :=
  (reg : List (String × Option Vehicle)).any fun e => e.1 == k

/-- Rewrite the value stored under key `k` (dict assignment to an existing
key / in-place mutation of the stored object). -/
def dictSet (reg : Reg) (k : String) (g : Option Vehicle → Option Vehicle) : Reg :=
  (reg : List (String × Option Vehicle)).map fun e =>
    if e.1 == k then (e.1, g e.2) else e

/-- Python dict assignment `reg[k] = v`: replaces the value of an existing
key in place, otherwise appends the new binding. -/
def dictInsert (reg : Reg) (k : String) (v : Option Vehicle) : Reg :=
  if containsKey reg k then dictSet reg k (fun _ => v)
  else reg ++ [(k, v)]

/-- In-place mutation of the vehicle stored under `k` (a no-op on a key
bound to `None`, where the source would raise AttributeError into the
enclosing `except: pass`). -/
def dictUpdate (reg : Reg) (k : String) (f : Vehicle → Vehicle) : Reg :=
  dictSet reg k fun ov => ov.map f

/-- The values of the registry as passed to `update_physics` (entries bound
to `None` cannot occur on any run that has not already crashed; they are
skipped here). -/
def vals (reg : Reg) : List Vehicle :=
  (reg : List (String × Option Vehicle)).filterMap fun e => e.2

/-- The fields of `V2XUnifiedApp` the decision core reads or writes. -/
structure AppState where
  myId : String
  reg : Reg
  own : Bool
deriving DecidableEq

/-- The field-by-field mutation of an already-registered vehicle performed
by the else-branch of `on_message`.  The assignments run in source order
and stop at the first failing field access (`except: pass` keeps the
mutations already made). -/
def applyUpdate (d : JVal) (now : ℚ) (v : Vehicle) : Vehicle :=
  match getNum d "x" with
  | none => v
  | some x0 =>
    let v1 := { v with x := x0 }
    match getInt d "lane" with
    | none => v1
    | some l0 =>
      let v2 := { v1 with lane := l0 }
      match getNum d "spd" with
      | none => v2
      | some s0 =>
        let v3 := { v2 with speed := s0 }
        match getBool d "emb" with
        | none => v3
        | some e0 =>
          { v3 with
            is_emergency := e0
            drowsy_alert := getBoolD d "drw" false
            braking := getBoolD d "brk" false
            last_update := now }

/-- `V2XUnifiedApp.on_message`.  `p = none` models an undecodable or
unparseable payload (exception caught, state unchanged). -/
def onMessage (st : AppState) (p : Option JVal) (rx rs : ℚ) (rc : List ℤ) (now : ℚ) : AppState :=
  match p with
  | none => st
  | some d =>
    match getStr d "id" with
    | none => st
    | some did =>
      if did == st.myId then st
      else if did == "AMB-1" && st.own then st
      else if containsKey st.reg did then
        { st with reg := dictUpdate st.reg did (applyUpdate d now) }
      else
        { st with reg := dictInsert st.reg did (fromJson (some d) rx rs rc now) }

/-- `V2XUnifiedApp.spawn_ambulance_click`. -/
def spawnAmbulanceClick (st : AppState) (now : ℚ) : AppState :=
  if containsKey st.reg "AMB-1" then st
  else
    { st with
      reg := dictInsert st.reg "AMB-1" (some (vehicleNew "AMB-1" true 0 0 [] now))
      own := true }

/-- The ghost test of `cleanup_ghosts`: a non-self entry whose `last_update`
age strictly exceeds `GHOST_TIMEOUT`. -/
def isGhost (myId : String) (now : ℚ) (e : String × Option Vehicle) : Bool :=
  e.1 != myId &&
    (match e.2 with
     | some v => decide (now - v.last_update > Config.GHOST_TIMEOUT)
     | none => false)

/-- The list of ids `cleanup_ghosts` deletes: the ghosts, minus `"AMB-1"`
when the local process owns the ambulance. -/
def ghostList (myId : String) (own : Bool) (reg : Reg) (now : ℚ) : List String :=
  let gs := ((reg : List (String × Option Vehicle)).filter (isGhost myId now)).map fun e => e.1
  if own && gs.contains "AMB-1" then gs.erase "AMB-1" else gs

/-- `V2XUnifiedApp.cleanup_ghosts`: delete every key in `ghostList` (key
deletion on a dict, expressed as a filter). -/
def cleanupGhosts (st : AppState) (now : ℚ) : AppState :=
  { st with
    reg := (st.reg : List (String × Option Vehicle)).filter fun e =>
      !((ghostList st.myId st.own st.reg now).contains e.1) }

/-! ## One simulation tick of the run loop, as an event trace -/

/-- Observable registry/channel events of one tick: an MQTT publish of a
vehicle id, or a ghost eviction of an id. -/
inductive Ev where
  | publish : String → Ev
  | evict : String → Ev
deriving DecidableEq

def isPublishEv : Ev → Bool
  | .publish _ => true
  | .evict _ => false

/-- True when every eviction in the trace precedes every publish. -/
def evictsFirst (tr : List Ev) : Bool :=
  (tr.dropWhile fun e => !isPublishEv e).all isPublishEv

/-- The ordered publish/evict events of one iteration of
`V2XUnifiedApp.run`, in source order: physics on the local vehicle, then
(if the process owns the ambulance and it is registered) physics on the
ambulance followed by its publish, then the publish of the local vehicle,
then `cleanup_ghosts`. -/
def tickTrace (st : AppState) (dt now : ℚ) (is_drowsy : Bool) : List Ev :=
  let r1 := dictUpdate st.reg st.myId fun v => updatePhysics v dt (vals st.reg) is_drowsy
  let hasAmb := st.own && containsKey r1 "AMB-1"
  let r2 :=
    if hasAmb then dictUpdate r1 "AMB-1" fun v => updatePhysics v dt (vals r1) false
    else r1
  ((if hasAmb then [Ev.publish "AMB-1"] else []) ++ [Ev.publish st.myId])
    ++ (ghostList st.myId st.own r2 now).map Ev.evict

/-! ## Navigation system -/

inductive RouteKey where
  | main : RouteKey
  | top : RouteKey
  | bottom : RouteKey
deriving DecidableEq

inductive RStatus where
  | active : RStatus
  | idle : RStatus
  | blocked : RStatus
deriving DecidableEq

/-- The route-selection state of `NavigationSystem`: per-route status, the
current route key (`None` = no route) and the previous route key. -/
structure NavState where
  statuses : RouteKey → RStatus
  current : Option RouteKey
  oldKey : Option RouteKey

/-- `NavigationSystem.select_best_route`: fixed priority main, then bottom,
then top; record the old key on a change; re-tag every non-blocked route as
active (the selected one) or idle. -/
def selectBestRoute (s : NavState) : NavState :=
  let newKey : Option RouteKey :=
    if s.statuses RouteKey.main ≠ RStatus.blocked then some RouteKey.main
    else if s.statuses RouteKey.bottom ≠ RStatus.blocked then some RouteKey.bottom
    else if s.statuses RouteKey.top ≠ RStatus.blocked then some RouteKey.top
    else none
  let old := if newKey ≠ s.current then s.current else s.oldKey
  { statuses := fun k =>
      if s.statuses k ≠ RStatus.blocked then
        (if some k = newKey then RStatus.active else RStatus.idle)
      else s.statuses k
    current := newKey
    oldKey := old }

/-! ## Concrete states used to instantiate the theorems -/

/-- The registry invariant stated by the specification. -/
def invariantOk (v : Vehicle) : Prop :=
  0 ≤ v.lane ∧ v.lane < Config.LANE_COUNT ∧
    0 ≤ v.speed ∧ v.speed ≤ Config.MAX_SPEED_MS * (3 / 2)

instance (v : Vehicle) : Decidable (invariantOk v) := by
  unfold invariantOk; infer_instance

/-- The invariant for a registry entry (vacuous on a corrupted `None`
binding). -/
def entryOk (e : String × Option Vehicle) : Prop :=
  match e.2 with
  | some w => invariantOk w
  | none => True

instance (e : String × Option Vehicle) : Decidable (entryOk e) := by
  unfold entryOk; exact match e.2 with
    | some _ => inferInstance
    | none => inferInstance

/-- A local vehicle with benign state. -/
def meV : Vehicle := vehicleNew "ME" false 100 25 [1, 2, 3] 0

/-- A peer vehicle whose `last_update` is stale at time 100. -/
def gV : Vehicle := vehicleNew "G" false 500 22 [7, 8, 9] 0

/-- A fresh peer vehicle at time 100. -/
def pV : Vehicle := { vehicleNew "P" false 300 21 [2, 2, 2] 0 with last_update := 99 }

/-- An ambulance in the same lane as `impV`, 300 m behind it. -/
def ambV : Vehicle := { vehicleNew "AMB-1" true 0 0 [] 0 with lane := 1, x := 700 }

/-- An impaired vehicle with an ambulance behind it. -/
def impV : Vehicle := vehicleNew "C" false 1000 20 [1, 1, 1] 0

/-- Vehicle A of the section-8 scenario: position 0, lane 1, speed 25. -/
def vehA : Vehicle := vehicleNew "A" false 0 25 [1, 2, 3] 0

/-- Vehicle B of the section-8 scenario: position 150, lane 1, speed 20. -/
def vehB : Vehicle := vehicleNew "B" false 150 20 [4, 5, 6] 0

/-- A vehicle about to cross the wrap boundary: position 1990, steady
speed 20. -/
def wV : Vehicle :=
  { vehicleNew "W" false 1990 20 [1, 1, 1] 0 with user_target_speed := 20 }

/-- App state with only the local vehicle registered. -/
def st3 : AppState := { myId := "ME", reg := [("ME", some meV)], own := false }

/-- App state with the local vehicle and one stale ghost. -/
def cst : AppState :=
  { myId := "ME", reg := [("ME", some meV), ("G", some gV)], own := false }

/-- App state with a fresh peer and a stale ghost. -/
def stc6 : AppState :=
  { myId := "ME", reg := [("ME", some meV), ("P", some pV), ("G", some gV)], own := false }

/-- App state of a process that owns the ambulance. -/
def stc9 : AppState :=
  { myId := "ME", reg := [("ME", some meV), ("AMB-1", some ambV)], own := true }

/-- A parseable payload for a new id that lacks the required fields
`emb` and `col` (the string `{"id": "Z", "x": 1}`). -/
def badPayload : JVal := .jobj [("id", .jstr "Z"), ("x", .jint 1)]

/-- A fully-formed payload for a new id whose lane field is 7, outside
`[0, LANE_COUNT)`, and whose speed exceeds `MAX_SPEED×1.5`. -/
def p1cex : JVal :=
  .jobj [("id", .jstr "V9"), ("emb", .jbool false), ("lane", .jint 7),
         ("x", .jnum 5), ("spd", .jnum 1000),
         ("col", .jarr [.jint 1, .jint 2, .jint 3])]

/-- The vehicle `on_message` stores for `p1cex`. -/
def v9cex : Vehicle :=
  { id := "V9", is_emergency := false, lane := 7, visual_lane := 7, x := 5,
    speed := 1000, user_target_speed := 25, target_speed := 0,
    color := [1, 2, 3], warning_vehicle_ahead := false, braking := false,
    drowsy_alert := false, last_update := 0, lane_change_cooldown := 0 }

/-- A remote payload claiming the locally-owned ambulance id. -/
def p9 : JVal :=
  .jobj [("id", .jstr "AMB-1"), ("lane", .jint 2), ("x", .jnum 5),
         ("spd", .jnum 9), ("emb", .jbool true), ("col", .jarr [])]

/-- Route state with every route unblocked. -/
def c4all : NavState :=
  { statuses := fun _ => RStatus.idle, current := some RouteKey.main, oldKey := none }

/-- Route state with main and bottom blocked, top unblocked. -/
def c4mb : NavState :=
  { statuses := fun k =>
      match k with
      | RouteKey.top => RStatus.idle
      | _ => RStatus.blocked
    current := some RouteKey.main
    oldKey := none }

/-- Route state with every route blocked. -/
def c4blk : NavState :=
  { statuses := fun _ => RStatus.blocked, current := some RouteKey.main, oldKey := none }

/-! ## Helper lemmas -/

theorem kinematics_lane (v : Vehicle) (dt : ℚ) : (kinematics v dt).lane = v.lane := rfl

theorem kinematics_cooldown (v : Vehicle) (dt : ℚ) :
    (kinematics v dt).lane_change_cooldown = v.lane_change_cooldown := rfl

theorem kinematics_target (v : Vehicle) (dt : ℚ) :
    (kinematics v dt).target_speed = v.target_speed := rfl

theorem kinematics_braking (v : Vehicle) (dt : ℚ) :
    (kinematics v dt).braking = v.braking := rfl

theorem kinematics_warning (v : Vehicle) (dt : ℚ) :
    (kinematics v dt).warning_vehicle_ahead = v.warning_vehicle_ahead := rfl

theorem kinematics_speed (v : Vehicle) (dt : ℚ) :
    (kinematics v dt).speed = newSpeed v dt := rfl

theorem kinematics_x (v : Vehicle) (dt : ℚ) :
    (kinematics v dt).x =
      if v.x + newSpeed v dt * dt > Config.TOTAL_LENGTH then 0
      else v.x + newSpeed v dt * dt := rfl

theorem decisionStep_x (v : Vehicle) (p : Percept) (dr : Bool) :
    (decisionStep v p dr).x = v.x := by
  unfold decisionStep
  split_ifs <;> rfl

theorem newSpeed_nonneg (v : Vehicle) (dt : ℚ) : 0 ≤ newSpeed v dt := by
  unfold newSpeed
  exact le_max_left _ _

theorem newSpeed_le_cap (v : Vehicle) (dt : ℚ) :
    newSpeed v dt ≤ Config.MAX_SPEED_MS * (3 / 2) := by
  unfold newSpeed
  exact max_le (by norm_num [Config.MAX_SPEED_MS, Config.MAX_SPEED_KMH]) (min_le_right _ _)

theorem decisionStep_lane_bounds (v : Vehicle) (p : Percept) (dr : Bool)
    (h0 : 0 ≤ v.lane) (h1 : v.lane < Config.LANE_COUNT) :
    0 ≤ (decisionStep v p dr).lane ∧ (decisionStep v p dr).lane < Config.LANE_COUNT := by
  unfold decisionStep
  simp only [Config.LANE_COUNT, Config.SERVICE_LANE_INDEX] at *
  split_ifs <;> simp_all <;> omega

/-! ## C2: impaired strictly dominates yield-to-ambulance -/

/-- C2: on a tick where the vehicle is impaired and an emergency vehicle is
within `AMBULANCE_DIST` behind it in the same lane, `update_physics`
executes exactly the impaired rule (the full update equals `impairedStep`),
and in particular a lane change made on such a tick moves one lane toward
the service lane with the impaired rule's 1.0 s cooldown, not the yield
rule's 2.0 s cooldown. -/
theorem C2_impaired_priority (v : Vehicle) (vs : List Vehicle) (dt : ℚ)
    (hamb : (perceive v vs).ambBehind = true) :
    updatePhysics v dt vs true = impairedStep v dt ∧
    (v.lane ≠ Config.SERVICE_LANE_INDEX → v.lane_change_cooldown - dt ≤ 0 →
      (updatePhysics v dt vs true).lane = v.lane + 1 ∧
      (updatePhysics v dt vs true).lane_change_cooldown = 1) := by
  have he : updatePhysics v dt vs true = impairedStep v dt := rfl
  refine ⟨he, fun h1 h2 => ?_⟩
  rw [he]
  unfold impairedStep
  rw [kinematics_lane, kinematics_cooldown]
  have h1' : (resetFlags v dt).lane ≠ Config.SERVICE_LANE_INDEX := h1
  have h2' : (resetFlags v dt).lane_change_cooldown ≤ 0 := h2
  rw [if_pos h1', if_pos h2']
  exact ⟨rfl, rfl⟩

/-- C2 witness: a concrete impaired vehicle in lane 1 with an ambulance
300 m behind in the same lane and an expired cooldown moves to lane 2 with
the impaired rule's cooldown of 1.0 s. -/
theorem C2_impaired_priority_witness :
    updatePhysics impV (1 / 10) [impV, ambV] true = impairedStep impV (1 / 10) ∧
    (updatePhysics impV (1 / 10) [impV, ambV] true).lane = impV.lane + 1 ∧
    (updatePhysics impV (1 / 10) [impV, ambV] true).lane_change_cooldown = 1 := by
  have hamb : (perceive impV [impV, ambV]).ambBehind = true := by
    simp [perceive, perceiveStep, wrapDist, ltInf, impV, ambV, vehicleNew,
      Config.AMBULANCE_DIST, Config.TOTAL_LENGTH, Config.MAX_SPEED_MS, Config.MAX_SPEED_KMH]
    norm_num
  have h := C2_impaired_priority impV [impV, ambV] (1 / 10) hamb
  have hl : impV.lane ≠ Config.SERVICE_LANE_INDEX := by decide
  have hc : impV.lane_change_cooldown - 1 / 10 ≤ 0 := by
    norm_num [impV, vehicleNew]
  exact ⟨h.1, (h.2 hl hc).1, (h.2 hl hc).2⟩

/-! ## C8: position wraparound -/

/-- C8: on any tick where the updated position `x + speed·dt` (with the
tick's already-updated speed, as in the source) strictly exceeds
`TOTAL_LENGTH`, the resulting position is exactly 0; otherwise it is
`x + speed·dt`. -/
theorem C8_wraparound (v : Vehicle) (dt : ℚ) (vs : List Vehicle) (dr : Bool) :
    (v.x + (updatePhysics v dt vs dr).speed * dt > Config.TOTAL_LENGTH →
      (updatePhysics v dt vs dr).x = 0) ∧
    (¬ v.x + (updatePhysics v dt vs dr).speed * dt > Config.TOTAL_LENGTH →
      (updatePhysics v dt vs dr).x = v.x + (updatePhysics v dt vs dr).speed * dt) := by
  have hx : (decisionStep (resetFlags v dt) (perceive v vs) dr).x = v.x :=
    decisionStep_x _ _ _
  unfold updatePhysics
  rw [kinematics_x, kinematics_speed, hx]
  constructor
  · intro h
    rw [if_pos h]
  · intro h
    rw [if_neg h]

/-- C8 witness: a vehicle at position 1990 moving at steady 20 m/s with
`dt = 1` reaches 2010 > 2000 and its position resets to exactly 0. -/
theorem C8_wraparound_witness : (updatePhysics wV 1 [] false).x = 0 := by
  apply (C8_wraparound wV 1 [] false).1
  simp [updatePhysics, perceive, perceiveStep, decisionStep, resetFlags, kinematics, newSpeed,
    infLt, wV, vehicleNew, Config.SERVICE_LANE_INDEX, Config.LANE_COUNT, Config.MAX_SPEED_MS,
    Config.MAX_SPEED_KMH, Config.TOTAL_LENGTH, Config.ACCEL, Config.BRAKE]
  norm_num

/-! ## C10: ambulance spawning is idempotent -/

theorem containsKey_dictSet (reg : Reg) (k' : String)
    (g : Option Vehicle → Option Vehicle) (k : String) :
    containsKey (dictSet reg k' g) k = containsKey reg k := by
  induction reg with
  | nil => rfl
  | cons e t ih =>
    simp only [containsKey, dictSet, List.map_cons, List.any_cons] at *
    rw [ih]
    congr 1
    split <;> rfl

theorem containsKey_dictInsert_self (reg : Reg) (k : String) (v : Option Vehicle) :
    containsKey (dictInsert reg k v) k = true := by
  unfold dictInsert
  split_ifs with hc
  · rw [containsKey_dictSet]; exact hc
  · simp [containsKey, List.any_append]

/-- C10: if an entry with id "AMB-1" is already present,
`spawn_ambulance_click` leaves the whole application state (registry and
ownership flag) unchanged, and composing two clicks from any state equals a
single click. -/
theorem C10_spawn_idempotent (st : AppState) (now now' : ℚ) :
    (containsKey st.reg "AMB-1" = true → spawnAmbulanceClick st now = st) ∧
    spawnAmbulanceClick (spawnAmbulanceClick st now) now' = spawnAmbulanceClick st now := by
  constructor
  · intro h
    unfold spawnAmbulanceClick
    rw [if_pos h]
  · by_cases h : containsKey st.reg "AMB-1" = true
    · unfold spawnAmbulanceClick
      simp only [if_pos h]
    · have h2 : containsKey
          (dictInsert st.reg "AMB-1" (some (vehicleNew "AMB-1" true 0 0 [] now)))
          "AMB-1" = true :=
        containsKey_dictInsert_self _ _ _
      unfold spawnAmbulanceClick
      simp only [if_neg h]
      rw [if_pos h2]

/-- C10 witness: a state already containing "AMB-1" is left unchanged by a
further click. -/
theorem C10_spawn_idempotent_witness : spawnAmbulanceClick stc9 7 = stc9 :=
  (C10_spawn_idempotent stc9 7 7).1 (by decide)

/-! ## C4: route selection priority -/

/-- C4: `select_best_route` picks the first non-blocked route in the static
order main, bottom (south), top (north): with all routes unblocked it
selects main; with main and bottom blocked it selects top; with all three
blocked the current route key becomes `none`; afterwards a non-blocked
route is active exactly when it is the selected route (so exactly one
non-blocked route is active when one exists), every other non-blocked
route is idle, and blocked routes stay blocked. -/
theorem C4_route_priority :
    (∀ s : NavState, (∀ k, s.statuses k ≠ RStatus.blocked) →
      (selectBestRoute s).current = some RouteKey.main) ∧
    (∀ s : NavState, s.statuses RouteKey.main = RStatus.blocked →
      s.statuses RouteKey.bottom = RStatus.blocked →
      s.statuses RouteKey.top ≠ RStatus.blocked →
      (selectBestRoute s).current = some RouteKey.top) ∧
    (∀ s : NavState, (∀ k, s.statuses k = RStatus.blocked) →
      (selectBestRoute s).current = none) ∧
    (∀ (s : NavState) (k : RouteKey), s.statuses k = RStatus.blocked →
      (selectBestRoute s).statuses k = RStatus.blocked) ∧
    (∀ (s : NavState) (k : RouteKey), s.statuses k ≠ RStatus.blocked →
      ((selectBestRoute s).statuses k = RStatus.active ↔
        (selectBestRoute s).current = some k)) ∧
    (∀ (s : NavState) (k : RouteKey), s.statuses k ≠ RStatus.blocked →
      (selectBestRoute s).current ≠ some k →
      (selectBestRoute s).statuses k = RStatus.idle) := by
  refine ⟨?_, ?_, ?_, ?_, ?_, ?_⟩
  · intro s h
    simp only [selectBestRoute]
    rw [if_pos (h RouteKey.main)]
  · intro s h1 h2 h3
    simp only [selectBestRoute]
    rw [if_neg (by simp [h1]), if_neg (by simp [h2]), if_pos h3]
  · intro s h
    simp only [selectBestRoute]
    rw [if_neg (by simp [h RouteKey.main]), if_neg (by simp [h RouteKey.bottom]),
      if_neg (by simp [h RouteKey.top])]
  · intro s k h
    simp only [selectBestRoute]
    rw [if_neg (by simp [h])]
    exact h
  · intro s k h
    simp only [selectBestRoute]
    rw [if_pos h]
    by_cases hk : some k =
        (if s.statuses RouteKey.main ≠ RStatus.blocked then some RouteKey.main
         else if s.statuses RouteKey.bottom ≠ RStatus.blocked then some RouteKey.bottom
         else if s.statuses RouteKey.top ≠ RStatus.blocked then some RouteKey.top
         else none)
    · rw [if_pos hk]
      exact iff_of_true rfl hk.symm
    · rw [if_neg hk]
      exact iff_of_false (by decide) (fun hc => hk hc.symm)
  · intro s k h hc
    have hcur : (selectBestRoute s).current =
        (if s.statuses RouteKey.main ≠ RStatus.blocked then some RouteKey.main
         else if s.statuses RouteKey.bottom ≠ RStatus.blocked then some RouteKey.bottom
         else if s.statuses RouteKey.top ≠ RStatus.blocked then some RouteKey.top
         else none) := rfl
    simp only [selectBestRoute]
    rw [if_pos h, if_neg (fun hk : some k = _ => hc (hcur.trans hk.symm))]

/-- C4 witness: the three scenario states of the spec, instantiating the
first three conjuncts of the route-priority theorem. -/
theorem C4_route_priority_witness :
    (selectBestRoute c4all).current = some RouteKey.main ∧
    (selectBestRoute c4mb).current = some RouteKey.top ∧
    (selectBestRoute c4blk).current = none := by
  refine ⟨C4_route_priority.1 c4all ?_,
    C4_route_priority.2.1 c4mb (by decide) (by decide) (by decide),
    C4_route_priority.2.2.1 c4blk ?_⟩
  · intro k; cases k <;> decide
  · intro k; cases k <;> decide

/-! ## C1: the lane/speed invariant -/

/-- C1 counterexample: the claim that every registry entry satisfies
`0 ≤ lane < LANE_COUNT` and `0 ≤ speed ≤ MAX_SPEED×1.5` also when the
state was produced by `on_message`/`from_json` is false: from a registry
satisfying the invariant, an inbound remote message with `lane = 7` and
`spd = 1000` is stored verbatim. -/
theorem C1_counterexample :
    ¬ (∀ (st : AppState) (p : Option JVal) (rx rs : ℚ) (rc : List ℤ) (now : ℚ)
        (vid : String) (v : Vehicle),
        (∀ e ∈ st.reg, entryOk e) →
        (onMessage st p rx rs rc now).reg.lookup vid = some (some v) →
        invariantOk v) := by
  intro h
  have hwf : ∀ e ∈ st3.reg, entryOk e := by
    intro e he
    simp only [st3, List.mem_singleton] at he
    subst he
    norm_num [entryOk, invariantOk, meV, vehicleNew, Config.LANE_COUNT,
      Config.MAX_SPEED_MS, Config.MAX_SPEED_KMH]
  have h1 := h st3 (some p1cex) 0 0 [] 0 "V9" v9cex hwf (by decide)
  have h2 : ¬ invariantOk v9cex := by
    intro hc
    have := hc.2.1
    norm_num [v9cex, Config.LANE_COUNT] at this
  exact h2 h1

/-- C1 amended: the invariant is preserved by local physics — for any
vehicle with `0 ≤ lane < LANE_COUNT`, `update_physics` keeps the lane in
range and unconditionally clamps the speed into
`[0, MAX_SPEED×1.5]` — but a vehicle written by
`on_message`/`from_json` is stored without validation, so the invariant
does not hold for states produced by inbound remote messages. -/
theorem C1_preserved (v : Vehicle) (dt : ℚ) (vs : List Vehicle) (dr : Bool)
    (h0 : 0 ≤ v.lane) (h1 : v.lane < Config.LANE_COUNT) :
    (0 ≤ (updatePhysics v dt vs dr).lane ∧
      (updatePhysics v dt vs dr).lane < Config.LANE_COUNT) ∧
    (0 ≤ (updatePhysics v dt vs dr).speed ∧
      (updatePhysics v dt vs dr).speed ≤ Config.MAX_SPEED_MS * (3 / 2)) := by
  constructor
  · have hb := decisionStep_lane_bounds (resetFlags v dt) (perceive v vs) dr h0 h1
    unfold updatePhysics
    rw [kinematics_lane]
    exact hb
  · exact ⟨newSpeed_nonneg _ _, newSpeed_le_cap _ _⟩

/-- C1 witness for the amended preservation theorem: the local vehicle of
the concrete two-vehicle state keeps its lane and speed in range. -/
theorem C1_preserved_witness :
    (0 ≤ (updatePhysics meV 1 [meV, gV] false).lane ∧
      (updatePhysics meV 1 [meV, gV] false).lane < Config.LANE_COUNT) ∧
    (0 ≤ (updatePhysics meV 1 [meV, gV] false).speed ∧
      (updatePhysics meV 1 [meV, gV] false).speed ≤ Config.MAX_SPEED_MS * (3 / 2)) :=
  C1_preserved meV 1 [meV, gV] false (by decide) (by decide)

/-! ## C3: handling of malformed inbound payloads -/

/-- C3: the claim that a payload missing required fields is dropped without
corrupting the registry is the documented intent, but the code slips for a
new id: `on_message` stores the result of `Vehicle.from_json`, which is
`None` on such a payload, so the registry gains a key bound to `None`
instead of dropping the message.  At the failing input
payload = the JSON text with id "Z" and x 1 only, deserialization fails yet
the registry afterwards contains a binding of "Z" to `None`. -/
theorem C3_none_stored :
    fromJson (some badPayload) 0 0 [] 7 = none ∧
    (onMessage st3 (some badPayload) 0 0 [] 7).reg = [("ME", some meV), ("Z", none)] := by
  constructor
  · rfl
  · decide

/-! ## C7: safe-following rule -/

/-- C7: on a tick where the minimum circular forward distance to a
same-lane vehicle satisfies `CRITICAL_DIST ≤ d < SAFE_DIST` and no
higher-priority rule fires (not impaired, not an emergency vehicle, no
ambulance behind), `update_physics` sets the target speed to the nearest
ahead neighbor's speed × 0.8 (10 m/s if no neighbor speed is known), sets
braking, and sets the forward warning exactly when the own speed exceeds
the neighbor's. -/
theorem C7_safe_following (v : Vehicle) (vs : List Vehicle) (dt d : ℚ)
    (hem : v.is_emergency = false)
    (hamb : (perceive v vs).ambBehind = false)
    (hd : (perceive v vs).distAhead = some d)
    (h80 : Config.CRITICAL_DIST ≤ d)
    (h200 : d < Config.SAFE_DIST) :
    (updatePhysics v dt vs false).target_speed =
      (match (perceive v vs).aheadSpeed with
       | some s => s * (4 / 5)
       | none => 10) ∧
    (updatePhysics v dt vs false).braking = true ∧
    (updatePhysics v dt vs false).warning_vehicle_ahead =
      decide (v.speed > (perceive v vs).aheadSpeed.getD 0) := by
  have hyield : ((perceive v vs).ambBehind && !(resetFlags v dt).is_emergency &&
      decide ((resetFlags v dt).lane_change_cooldown ≤ 0)) = false := by
    rw [hamb]
    rfl
  have hem' : (resetFlags v dt).is_emergency = false := hem
  have hcrit : infLt (perceive v vs).distAhead Config.CRITICAL_DIST = false := by
    rw [hd]
    unfold infLt
    simpa using not_lt.mpr h80
  have hsafe : infLt (perceive v vs).distAhead Config.SAFE_DIST = true := by
    rw [hd]
    unfold infLt
    simpa using h200
  have hds : decisionStep (resetFlags v dt) (perceive v vs) false =
      { resetFlags v dt with
        target_speed := match (perceive v vs).aheadSpeed with
          | some s => s * (4 / 5)
          | none => 10
        braking := true
        warning_vehicle_ahead :=
          decide ((resetFlags v dt).speed > (perceive v vs).aheadSpeed.getD 0) } := by
    unfold decisionStep
    rw [hyield, hem', hcrit, hsafe]
    simp [hem']
  unfold updatePhysics
  rw [hds]
  exact ⟨rfl, rfl, rfl⟩

/-- C7 witness: the section-8 scenario — A at position 0, lane 1, speed 25;
B at position 150, lane 1, speed 20 — yields target speed 16 = 20×0.8,
braking, and the forward warning. -/
theorem C7_safe_following_witness :
    (updatePhysics vehA 1 [vehA, vehB] false).target_speed = 16 ∧
    (updatePhysics vehA 1 [vehA, vehB] false).braking = true ∧
    (updatePhysics vehA 1 [vehA, vehB] false).warning_vehicle_ahead = true := by
  have hp : perceive vehA [vehA, vehB] =
      { distAhead := some 150, aheadSpeed := some 20, ambBehind := false } := by
    simp [perceive, perceiveStep, wrapDist, ltInf, vehA, vehB, vehicleNew,
      Config.AMBULANCE_DIST, Config.TOTAL_LENGTH]
  have h := C7_safe_following vehA [vehA, vehB] 1 150 (by decide)
    (by rw [hp]) (by rw [hp]) (by norm_num [Config.CRITICAL_DIST])
    (by norm_num [Config.SAFE_DIST])
  refine ⟨h.1.trans ?_, h.2.1, h.2.2.trans ?_⟩
  · rw [hp]
    norm_num
  · rw [hp]
    simp [vehA, vehicleNew]
    norm_num

/-! ## C9: the self entry and the owned ambulance are never overwritten -/

theorem lookup_dictSet_ne (reg : Reg) (k k' : String)
    (g : Option Vehicle → Option Vehicle) (h : k' ≠ k) :
    (dictSet reg k g).lookup k' = reg.lookup k' := by
  induction reg with
  | nil => rfl
  | cons e t ih =>
    simp only [dictSet, List.map_cons] at *
    by_cases he : (e.1 == k) = true
    · have hek : e.1 = k := by simpa using he
      have h1 : (k' == e.1) = false := by
        rw [hek]
        exact beq_eq_false_iff_ne.mpr h
      rw [if_pos he]
      simp only [List.lookup, h1]
      exact ih
    · rw [if_neg he]
      by_cases h2 : (k' == e.1) = true
      · simp only [List.lookup, h2]
      · have h2' : (k' == e.1) = false := by simpa using h2
        simp only [List.lookup, h2']
        exact ih

theorem lookup_append_single_ne (l : Reg) (k k' : String) (v : Option Vehicle)
    (h : k' ≠ k) :
    (l ++ [(k, v)]).lookup k' = l.lookup k' := by
  induction l with
  | nil =>
    have h1 : (k' == k) = false := beq_eq_false_iff_ne.mpr h
    simp only [List.nil_append, List.lookup, h1]
  | cons e t ih =>
    by_cases h2 : (k' == e.1) = true
    · simp only [List.cons_append, List.lookup, h2]
    · have h2' : (k' == e.1) = false := by simpa using h2
      simp only [List.cons_append, List.lookup, h2']
      exact ih

theorem lookup_dictUpdate_ne (reg : Reg) (k k' : String) (f : Vehicle → Vehicle)
    (h : k' ≠ k) :
    (dictUpdate reg k f).lookup k' = reg.lookup k' :=
  lookup_dictSet_ne reg k k' _ h

theorem lookup_dictInsert_ne (reg : Reg) (k k' : String) (v : Option Vehicle)
    (h : k' ≠ k) :
    (dictInsert reg k v).lookup k' = reg.lookup k' := by
  unfold dictInsert
  split_ifs with hc
  · exact lookup_dictSet_ne reg k k' _ h
  · exact lookup_append_single_ne reg k k' v h

/-- C9: `on_message` never replaces or mutates the local agent's own
registry entry, and when the process owns the ambulance it also never
touches the "AMB-1" entry, for every inbound payload. -/
theorem C9_self_preserved (st : AppState) (p : Option JVal) (rx rs : ℚ)
    (rc : List ℤ) (now : ℚ) :
    ((onMessage st p rx rs rc now).reg.lookup st.myId = st.reg.lookup st.myId) ∧
    (st.own = true →
      (onMessage st p rx rs rc now).reg.lookup "AMB-1" = st.reg.lookup "AMB-1") := by
  unfold onMessage
  cases p with
  | none => exact ⟨rfl, fun _ => rfl⟩
  | some d =>
    dsimp only
    cases hgs : getStr d "id" with
    | none => exact ⟨rfl, fun _ => rfl⟩
    | some did =>
      dsimp only
      by_cases h1 : (did == st.myId) = true
      · rw [if_pos h1]
        exact ⟨rfl, fun _ => rfl⟩
      · rw [if_neg h1]
        have hne1 : st.myId ≠ did := by
          intro hh
          exact h1 (by simp [hh])
        by_cases h2 : (did == "AMB-1" && st.own) = true
        · rw [if_pos h2]
          exact ⟨rfl, fun _ => rfl⟩
        · rw [if_neg h2]
          by_cases h3 : containsKey st.reg did = true
          · rw [if_pos h3]
            refine ⟨lookup_dictUpdate_ne st.reg did st.myId _ hne1, fun hown => ?_⟩
            have hne2 : ("AMB-1" : String) ≠ did := by
              intro hh
              exact h2 (by simp [← hh, hown])
            exact lookup_dictUpdate_ne st.reg did "AMB-1" _ hne2
          · rw [if_neg h3]
            refine ⟨lookup_dictInsert_ne st.reg did st.myId _ hne1, fun hown => ?_⟩
            have hne2 : ("AMB-1" : String) ≠ did := by
              intro hh
              exact h2 (by simp [← hh, hown])
            exact lookup_dictInsert_ne st.reg did "AMB-1" _ hne2

/-- C9 witness: a remote payload claiming id "AMB-1" against a state that
owns the ambulance leaves both the self entry and the ambulance entry
unchanged. -/
theorem C9_self_preserved_witness :
    (onMessage stc9 (some p9) 0 0 [] 50).reg.lookup "ME" = stc9.reg.lookup "ME" ∧
    (onMessage stc9 (some p9) 0 0 [] 50).reg.lookup "AMB-1" = stc9.reg.lookup "AMB-1" := by
  have h := C9_self_preserved stc9 (some p9) 0 0 [] 50
  exact ⟨h.1, h.2 rfl⟩

/-! ## C6: ghost eviction -/

theorem keyInj (l : Reg) (hnd : (l.map fun e => e.1).Nodup) :
    ∀ a ∈ l, ∀ b ∈ l, a.1 = b.1 → a = b := by
  induction l with
  | nil =>
    intro a ha
    exact absurd ha (List.not_mem_nil a)
  | cons x t ih =>
    simp only [List.map_cons, List.nodup_cons] at hnd
    intro a ha b hb hab
    rcases List.mem_cons.mp ha with rfl | ha'
    · rcases List.mem_cons.mp hb with rfl | hb'
      · rfl
      · have hbm : b.1 ∈ t.map fun e => e.1 := List.mem_map_of_mem _ hb'
        rw [← hab] at hbm
        exact absurd hbm hnd.1
    · rcases List.mem_cons.mp hb with rfl | hb'
      · have ham : a.1 ∈ t.map fun e => e.1 := List.mem_map_of_mem _ ha'
        rw [hab] at ham
        exact absurd ham hnd.1
      · exact ih hnd.2 a ha' b hb' hab

theorem mem_gsKeys_iff (myId : String) (now : ℚ) (reg : Reg)
    (hnd : (reg.map fun e => e.1).Nodup) (vid : String) (v : Vehicle)
    (hv : (vid, some v) ∈ reg) :
    (vid ∈ (reg.filter (isGhost myId now)).map fun e => e.1) ↔
      (vid ≠ myId ∧ now - v.last_update > Config.GHOST_TIMEOUT) := by
  constructor
  · intro hm
    rcases List.mem_map.mp hm with ⟨e, he, hkey⟩
    have he' := List.mem_filter.mp he
    have heq : e = (vid, some v) := keyInj reg hnd e he'.1 (vid, some v) hv (by rw [hkey])
    have hg := he'.2
    rw [heq] at hg
    unfold isGhost at hg
    rw [Bool.and_eq_true] at hg
    refine ⟨?_, ?_⟩
    · have := hg.1
      simpa using this
    · have := hg.2
      simpa using this
  · rintro ⟨hne, hst⟩
    have hg : isGhost myId now (vid, some v) = true := by
      unfold isGhost
      rw [Bool.and_eq_true]
      exact ⟨by simpa using hne, by simpa using hst⟩
    exact List.mem_map.mpr ⟨(vid, some v), List.mem_filter.mpr ⟨hv, hg⟩, rfl⟩

theorem gs_nodup (myId : String) (now : ℚ) (reg : Reg)
    (hnd : (reg.map fun e => e.1).Nodup) :
    ((reg.filter (isGhost myId now)).map fun e => e.1).Nodup := by
  have hsub : ((reg.filter (isGhost myId now)).map fun e => e.1).Sublist
      (reg.map fun e => e.1) :=
    (List.filter_sublist reg).map _
  exact hsub.nodup hnd

theorem contains_iff_mem (l : List String) (a : String) :
    l.contains a = true ↔ a ∈ l := by
  induction l with
  | nil => simp
  | cons x t ih => simp

theorem mem_ghostList_iff (myId : String) (own : Bool) (reg : Reg) (now : ℚ)
    (hnd : (reg.map fun e => e.1).Nodup) (vid : String) (v : Vehicle)
    (hv : (vid, some v) ∈ reg) :
    vid ∈ ghostList myId own reg now ↔
      ((vid ≠ myId ∧ now - v.last_update > Config.GHOST_TIMEOUT) ∧
        ¬ (own = true ∧ vid = "AMB-1")) := by
  unfold ghostList
  have hgs := mem_gsKeys_iff myId now reg hnd vid v hv
  by_cases hc : (own &&
      (((reg.filter (isGhost myId now)).map fun e => e.1).contains "AMB-1")) = true
  · rw [if_pos hc]
    have hown : own = true := by
      rw [Bool.and_eq_true] at hc
      exact hc.1
    by_cases hveq : vid = "AMB-1"
    · subst hveq
      constructor
      · intro hm
        exact absurd hm (gs_nodup myId now reg hnd).not_mem_erase
      · rintro ⟨_, hno⟩
        exact absurd ⟨hown, rfl⟩ hno
    · rw [List.mem_erase_of_ne hveq, hgs]
      constructor
      · exact fun hh => ⟨hh, fun hcon => hveq hcon.2⟩
      · exact fun hh => hh.1
  · rw [if_neg hc, hgs]
    by_cases hown : own = true
    · have hcont : (((reg.filter (isGhost myId now)).map fun e => e.1).contains
          "AMB-1") = false := by
        cases hb : (((reg.filter (isGhost myId now)).map fun e => e.1).contains "AMB-1")
        · rfl
        · refine absurd ?_ hc
          rw [hown, hb]
          rfl
      constructor
      · intro hh
        refine ⟨hh, fun hcon => ?_⟩
        have : vid ∈ (reg.filter (isGhost myId now)).map fun e => e.1 := hgs.mpr hh
        rw [hcon.2] at this
        rw [(contains_iff_mem _ _).mpr this] at hcont
        exact Bool.true_eq_false.mp hcont
      · exact fun hh => hh.1
    · constructor
      · exact fun hh => ⟨hh, fun hcon => hown hcon.1⟩
      · exact fun hh => hh.1

/-- C6: after a `cleanup_ghosts` pass at time `now`, a registry entry
survives exactly when it already existed and is either the local agent's
own entry, the owned ambulance entry "AMB-1", or fresh
(`now − lastSeen ≤ GHOST_TIMEOUT`); every other entry is removed, and
surviving entries are unchanged. -/
theorem C6_eviction (st : AppState) (now : ℚ) (vid : String) (v : Vehicle)
    (hnd : (st.reg.map fun e => e.1).Nodup) :
    (vid, some v) ∈ (cleanupGhosts st now).reg ↔
      ((vid, some v) ∈ st.reg ∧
        (vid = st.myId ∨ (st.own = true ∧ vid = "AMB-1") ∨
          now - v.last_update ≤ Config.GHOST_TIMEOUT)) := by
  unfold cleanupGhosts
  rw [List.mem_filter]
  constructor
  · rintro ⟨hm, hk⟩
    refine ⟨hm, ?_⟩
    have hnotin : vid ∉ ghostList st.myId st.own st.reg now := by
      intro hin
      rw [(contains_iff_mem _ _).mpr hin] at hk
      exact Bool.false_ne_true (by simpa using hk.symm)
    rw [mem_ghostList_iff st.myId st.own st.reg now hnd vid v hm] at hnotin
    by_cases h1 : vid = st.myId
    · exact Or.inl h1
    by_cases h2 : st.own = true ∧ vid = "AMB-1"
    · exact Or.inr (Or.inl h2)
    · refine Or.inr (Or.inr ?_)
      by_contra h3
      exact hnotin ⟨⟨h1, not_le.mp h3⟩, h2⟩
  · rintro ⟨hm, hd⟩
    refine ⟨hm, ?_⟩
    have hnotin : vid ∉ ghostList st.myId st.own st.reg now := by
      rw [mem_ghostList_iff st.myId st.own st.reg now hnd vid v hm]
      rintro ⟨⟨hne, hst⟩, hno⟩
      rcases hd with h | h | h
      · exact hne h
      · exact hno h
      · exact absurd hst (not_lt.mpr h)
    cases hb : (ghostList st.myId st.own st.reg now).contains ((vid, some v) : String × Option Vehicle).1
    · rfl
    · exact absurd ((contains_iff_mem _ _).mp hb) hnotin

/-- C6 witness: in a registry with a fresh peer "P" (last seen at 99) and a
stale ghost "G" (last seen at 0), a cleanup pass at time 100 keeps "P" and
evicts "G". -/
theorem C6_eviction_witness :
    ("P", some pV) ∈ (cleanupGhosts stc6 100).reg ∧
    ("G", some gV) ∉ (cleanupGhosts stc6 100).reg := by
  constructor
  · refine (C6_eviction stc6 100 "P" pV (by decide)).mpr ⟨by decide, Or.inr (Or.inr ?_)⟩
    norm_num [pV, vehicleNew, Config.GHOST_TIMEOUT]
  · intro h
    have hd := ((C6_eviction stc6 100 "G" gV (by decide)).mp h).2
    rcases hd with h1 | h1 | h1
    · exact absurd h1 (by decide)
    · exact absurd h1.1 (by decide)
    · have : ¬ ((100 : ℚ) - gV.last_update ≤ Config.GHOST_TIMEOUT) := by
        norm_num [gV, vehicleNew, Config.GHOST_TIMEOUT]
      exact this h1

/-! ## C5: eviction versus broadcast ordering within a tick -/

theorem keys_dictSet (reg : Reg) (k : String) (g : Option Vehicle → Option Vehicle) :
    ((dictSet reg k g).map fun e => e.1) = reg.map fun e => e.1 := by
  induction reg with
  | nil => rfl
  | cons e t ih =>
    simp only [dictSet, List.map_cons] at *
    rw [ih]
    congr 1
    split <;> rfl

theorem keys_dictUpdate (reg : Reg) (k : String) (f : Vehicle → Vehicle) :
    ((dictUpdate reg k f).map fun e => e.1) = reg.map fun e => e.1 :=
  keys_dictSet reg k _

theorem not_self_mem_ghostList (myId : String) (own : Bool) (reg : Reg) (now : ℚ) :
    myId ∉ ghostList myId own reg now := by
  intro h
  simp only [ghostList] at h
  have h2 : myId ∈ (reg.filter (isGhost myId now)).map fun e => e.1 := by
    split at h
    · exact List.mem_of_mem_erase h
    · exact h
  rcases List.mem_map.mp h2 with ⟨e, he, hkey⟩
  have hg := (List.mem_filter.mp he).2
  unfold isGhost at hg
  rw [Bool.and_eq_true] at hg
  have hb := hg.1
  rw [hkey] at hb
  simp at hb

theorem ownedAmb_not_mem_ghostList (myId : String) (reg : Reg) (now : ℚ)
    (hnd : (reg.map fun e => e.1).Nodup) :
    "AMB-1" ∉ ghostList myId true reg now := by
  intro h
  simp only [ghostList] at h
  by_cases hc : (true &&
      (((reg.filter (isGhost myId now)).map fun e => e.1).contains "AMB-1")) = true
  · rw [if_pos hc] at h
    exact (gs_nodup myId now reg hnd).not_mem_erase h
  · rw [if_neg hc] at h
    refine hc ?_
    rw [(contains_iff_mem _ _).mpr h]
    rfl

theorem trace_shape (b : Bool) (s : String) (gl : List String) :
    ∃ ps es,
      ((((if b then [Ev.publish "AMB-1"] else []) ++ [Ev.publish s]) ++ gl.map Ev.evict)
        = ps ++ es) ∧
      (∀ e ∈ ps, isPublishEv e = true) ∧ (∀ e ∈ es, isPublishEv e = false) := by
  refine ⟨(if b then [Ev.publish "AMB-1"] else []) ++ [Ev.publish s], gl.map Ev.evict,
    rfl, ?_, ?_⟩
  · intro e he
    rcases List.mem_append.mp he with h | h
    · split at h
      · rw [List.mem_singleton] at h
        subst h
        rfl
      · exact absurd h (List.not_mem_nil e)
    · rw [List.mem_singleton] at h
      subst h
      rfl
  · intro e he
    rcases List.mem_map.mp he with ⟨a, _, heq⟩
    subst heq
    rfl

theorem trace_disjoint (b : Bool) (s : String) (gl : List String)
    (hself : s ∉ gl) (hamb : b = true → "AMB-1" ∉ gl) :
    ∀ vid,
      Ev.evict vid ∈
        (((if b then [Ev.publish "AMB-1"] else []) ++ [Ev.publish s]) ++ gl.map Ev.evict) →
      Ev.publish vid ∉
        (((if b then [Ev.publish "AMB-1"] else []) ++ [Ev.publish s]) ++ gl.map Ev.evict) := by
  intro vid hev hpub
  have hvg : vid ∈ gl := by
    rcases List.mem_append.mp hev with h | h
    · exfalso
      rcases List.mem_append.mp h with h' | h'
      · split at h'
        · rw [List.mem_singleton] at h'
          exact Ev.noConfusion h'
        · exact absurd h' (List.not_mem_nil _)
      · rw [List.mem_singleton] at h'
        exact Ev.noConfusion h'
    · rcases List.mem_map.mp h with ⟨a, ha, heq⟩
      have hav : a = vid := by
        injection heq with hh
      rwa [hav] at ha
  rcases List.mem_append.mp hpub with g | g
  · rcases List.mem_append.mp g with g' | g'
    · by_cases hb : b = true
      · rw [if_pos hb] at g'
        rw [List.mem_singleton] at g'
        have hva : vid = "AMB-1" := by
          injection g' with hh
        exact hamb hb (hva ▸ hvg)
      · rw [if_neg hb] at g'
        exact absurd g' (List.not_mem_nil _)
    · rw [List.mem_singleton] at g'
      have hvs : vid = s := by
        injection g' with hh
      exact hself (hvs ▸ hvg)
  · rcases List.mem_map.mp g with ⟨a, _, heq⟩
    exact Ev.noConfusion heq

/-- C5 counterexample: the claim that within a tick ghost eviction happens
before the outbound broadcast is false for the run loop: in the concrete
state with one stale ghost, the tick trace is
[publish "ME", evict "G"] — the publish precedes the eviction. -/
theorem C5_counterexample :
    ¬ (∀ (st : AppState) (dt now : ℚ) (dr : Bool),
        evictsFirst (tickTrace st dt now dr) = true) := by
  intro h
  have h1 := h cst 1 100 false
  have h2 : evictsFirst (tickTrace cst 1 100 false) = false := by
    simp [tickTrace, dictUpdate, dictSet, vals, containsKey, ghostList, isGhost,
      evictsFirst, isPublishEv, cst, meV, gV, vehicleNew, Config.GHOST_TIMEOUT]
    exact ⟨"G", some (vehicleNew "G" false 500 22 [7, 8, 9] 0), ⟨rfl, rfl⟩,
      by decide, by norm_num [vehicleNew]⟩
  rw [h1] at h2
  exact Bool.noConfusion h2

/-- C5 amended: in the run loop the outbound broadcasts of a tick precede
ghost eviction (the trace is a block of publishes followed by a block of
evictions), yet an id evicted in a tick is still never published during
that same tick, because only the local vehicle and the locally-owned
ambulance are ever published and neither is evictable. -/
theorem C5_no_ghost_published (st : AppState) (dt now : ℚ) (dr : Bool)
    (hnd : (st.reg.map fun e => e.1).Nodup) :
    (∃ ps es, tickTrace st dt now dr = ps ++ es ∧
      (∀ e ∈ ps, isPublishEv e = true) ∧ (∀ e ∈ es, isPublishEv e = false)) ∧
    (∀ vid, Ev.evict vid ∈ tickTrace st dt now dr →
      Ev.publish vid ∉ tickTrace st dt now dr) := by
  constructor
  · exact trace_shape _ _ _
  · apply trace_disjoint
    · exact not_self_mem_ghostList _ _ _ _
    · intro hb
      have hown : st.own = true := by
        rw [Bool.and_eq_true] at hb
        exact hb.1
      rw [if_pos hb, hown]
      apply ownedAmb_not_mem_ghostList
      rw [keys_dictUpdate, keys_dictUpdate]
      exact hnd

/-- C5 witness for the amended theorem: in the concrete one-ghost state,
"G" is evicted during the tick and is not published during that tick. -/
theorem C5_no_ghost_published_witness :
    Ev.publish "G" ∉ tickTrace cst 1 100 false := by
  refine (C5_no_ghost_published cst 1 100 false (by decide)).2 "G" ?_
  simp [tickTrace, dictUpdate, dictSet, vals, containsKey, ghostList, isGhost,
    cst, meV, gV, vehicleNew, Config.GHOST_TIMEOUT]
  norm_num

end V2X
